import Mathlib

/-!
# Verification of the Budget pipeline (`src/main.py`)

A shallow embedding of the normalization-and-classification engine of the
Budget repository: the per-source parsers (`process_fnb_file`,
`process_discovery_file`, `process_standard_bank_file`), the folder
aggregator (`process_files_in_folder`), the merge/dedup step, and the
rule-matching classifier (`apply_category` inside
`process_combined_dataframe`).

Python strings are modelled as Lean `String`s, but every string operation
the source uses (`strip`, `lower`, `split`, `in`, `startswith`, `endswith`,
slicing) is re-implemented structurally over the character list `s.data`,
so that all definitions evaluate by kernel reduction.  Python `dict`s
(which preserve insertion order) are modelled as association lists.
Raised Python exceptions are modelled with `Except PyError`.
-/

/-! ## Python string primitives -/

/-- Python `str.lower()` restricted to its ASCII behaviour (all strings in
the source and its configuration are ASCII). -/
def py_lower (s : String) : String := String.mk (s.data.map Char.toLower)

/-- Python `str.strip()`: drop leading and trailing whitespace. -/
def py_strip (s : String) : String :=
  String.mk (((s.data.dropWhile Char.isWhitespace).reverse.dropWhile
    Char.isWhitespace).reverse)

/-- Split a character list at every occurrence of `c`; like Python
`str.split(c)`, the empty string yields one empty field. -/
def split_on_char (c : Char) : List Char → List (List Char)
  | [] => [[]]
  | a :: t =>
    let r := split_on_char c t
    if a = c then [] :: r
    else
      match r with
      | h :: t' => (a :: h) :: t'
      | [] => [[a]]

/-- Python `s.split(',')`. -/
def py_split_comma (s : String) : List String :=
  (split_on_char ',' s.data).map (fun l => String.mk l)

/-- Does `haystack` start with `needle` (character lists)? -/
def char_list_starts (needle haystack : List Char) : Bool :=
  match needle, haystack with
  | [], _ => true
  | _ :: _, [] => false
  | a :: as, b :: bs => a = b && char_list_starts as bs

/-- Contiguous-substring test on character lists. -/
def char_list_has (haystack needle : List Char) : Bool :=
  match haystack with
  | [] => needle.isEmpty
  | _ :: t => char_list_starts needle haystack || char_list_has t needle

/-- Python `needle in haystack` for strings. -/
def str_contains (haystack needle : String) : Bool :=
  char_list_has haystack.data needle.data

/-- Python `s.startswith('#')`. -/
def py_startswith_hash (s : String) : Bool :=
  match s.data with
  | c :: _ => c = '#'
  | [] => false

/-- Python `s.endswith(pat)`. -/
def py_endswith (s pat : String) : Bool :=
  char_list_starts pat.data.reverse s.data.reverse

/-- Python slice `s[2:-1]` (never raises; short strings give `""`). -/
def py_slice_2_m1 (s : String) : String :=
  String.mk ((s.data.drop 2).dropLast)

/-- Index of the first occurrence of `name` in a list of column names
(`df.columns.get_loc`-style lookup used to model column access). -/
def find_index (name : String) : List String → Option Nat
  | [] => none
  | h :: t => if h = name then some 0 else (find_index name t).map Nat.succ

/-- The match test used throughout `apply_category`:
`bank_description.strip().lower() in description.strip().lower()`.
(The generic and non-EFT branches strip/lower the needle twice, which is
idempotent, so all branches reduce to this one test.) -/
def desc_match (bank_description description : String) : Bool :=
  str_contains (py_lower (py_strip description)) (py_lower (py_strip bank_description))

/-! ## Dates (`pd.to_datetime` / `strftime('%Y/%m/%d')`) -/

structure Date where
  y : Nat
  m : Nat
  d : Nat
deriving DecidableEq

def is_leap (y : Nat) : Bool :=
  y % 4 = 0 && (y % 100 ≠ 0 || y % 400 = 0)

def days_in_month (y m : Nat) : Nat :=
  if m = 2 then (if is_leap y then 29 else 28)
  else if m = 4 || m = 6 || m = 9 || m = 11 then 30
  else 31

def valid_date (y m d : Nat) : Bool :=
  1 ≤ m && m ≤ 12 && 1 ≤ d && d ≤ days_in_month y m

def nat_of_digits (l : List Char) : Nat :=
  l.foldl (fun acc c => acc * 10 + (c.toNat - 48)) 0

/-- `pd.to_datetime(s, format='%Y%m%d')` on one value: exactly eight digits
forming a valid calendar date, else unparseable. -/
def parse_yyyymmdd (s : String) : Option Date :=
  let cs := s.data
  if cs.length = 8 && cs.all Char.isDigit then
    let y := nat_of_digits (cs.take 4)
    let m := nat_of_digits ((cs.drop 4).take 2)
    let d := nat_of_digits (cs.drop 6)
    if valid_date y m d then some ⟨y, m, d⟩ else none
  else none

/-- A ten-character ISO-style date `YYYY-MM-DD` or `YYYY/MM/DD`. -/
def parse_iso_core (cs : List Char) : Option Date :=
  match cs with
  | [y1, y2, y3, y4, s1, m1, m2, s2, d1, d2] =>
    if (s1 = '-' || s1 = '/') && s2 = s1 &&
        [y1, y2, y3, y4, m1, m2, d1, d2].all Char.isDigit then
      let y := nat_of_digits [y1, y2, y3, y4]
      let m := nat_of_digits [m1, m2]
      let d := nat_of_digits [d1, d2]
      if valid_date y m d then some ⟨y, m, d⟩ else none
    else none
  | _ => none

/-- An optional `HH:MM` or `HH:MM:SS` time-of-day suffix. -/
def parse_time_ok (cs : List Char) : Bool :=
  match cs with
  | [] => true
  | [h1, h2, c1, n1, n2] =>
    c1 = ':' && [h1, h2, n1, n2].all Char.isDigit &&
      nat_of_digits [h1, h2] < 24 && nat_of_digits [n1, n2] < 60
  | [h1, h2, c1, n1, n2, c2, e1, e2] =>
    c1 = ':' && c2 = ':' && [h1, h2, n1, n2, e1, e2].all Char.isDigit &&
      nat_of_digits [h1, h2] < 24 && nat_of_digits [n1, n2] < 60 &&
      nat_of_digits [e1, e2] < 60
  | _ => false

/-- Model of pandas' flexible date guesser `pd.to_datetime(s)` (no `format`
argument), restricted to the ISO-style inputs the pipeline feeds it:
`YYYY-MM-DD` or `YYYY/MM/DD`, optionally followed by a space and a time of
day; anything else is unparseable.  The real library accepts further
locale formats; the claims rely only on the parseable/unparseable split
and on the rendering of parseable values. -/
def to_datetime_guess (s : String) : Option Date :=
  let cs := (py_strip s).data
  match parse_iso_core (cs.take 10) with
  | none => none
  | some d =>
    match cs.drop 10 with
    | [] => some d
    | c :: t => if c = ' ' && parse_time_ok t then some d else none

def pad2 (n : Nat) : String := if n < 10 then "0" ++ toString n else toString n

def pad4 (n : Nat) : String :=
  if n < 10 then "000" ++ toString n
  else if n < 100 then "00" ++ toString n
  else if n < 1000 then "0" ++ toString n
  else toString n

/-- `dt.strftime('%Y/%m/%d')` on one parsed value. -/
def render_date (d : Date) : String :=
  pad4 d.y ++ "/" ++ pad2 d.m ++ "/" ++ pad2 d.d

/-- Line 176 of `main.py` applied to one Date cell:
`pd.to_datetime(df['Date'], errors='coerce').dt.strftime('%Y/%m/%d')`.
`none` models the `NaT`/`NaN` unparseable-date marker that `errors='coerce'`
leaves in the cell. -/
def process_combined_date (s : String) : Option String :=
  (to_datetime_guess s).map render_date

/-! ## Records and errors -/

/-- A raised Python exception, as observable from the pipeline. -/
inductive PyError where
  | keyError : String → PyError
  | indexError : PyError
  | dateParseError : String → PyError
deriving DecidableEq

/-- The canonical transaction record all dialects normalize into
(the columns selected on line 216 of `main.py`, minus the derived
`Category`/`Payment` pair which `apply_category` returns separately). -/
structure Record where
  date : String
  accountName : String
  accountNumber : String
  transactionType : String
  description : String
  amount : String
deriving DecidableEq

instance except_dec_eq {ε α : Type} [DecidableEq ε] [DecidableEq α] :
    DecidableEq (Except ε α) := fun x y =>
  match x, y with
  | Except.ok a, Except.ok b =>
    match decEq a b with
    | isTrue h => isTrue (congrArg Except.ok h)
    | isFalse h => isFalse (fun e => h (Except.ok.inj e))
  | Except.error a, Except.error b =>
    match decEq a b with
    | isTrue h => isTrue (congrArg Except.error h)
    | isFalse h => isFalse (fun e => h (Except.error.inj e))
  | Except.ok _, Except.error _ => isFalse (fun e => Except.noConfusion e)
  | Except.error _, Except.ok _ => isFalse (fun e => Except.noConfusion e)

/-- Python `l[i]`: raises `IndexError` when out of range. -/
def py_get {α : Type} (l : List α) (i : Nat) : Except PyError α :=
  match l.get? i with
  | some a => Except.ok a
  | none => Except.error PyError.indexError

/-! ## The rule table (`mappings['Transaction Map']`)

`PaymentLabel → [substrings]` pairs, grouped under categories, grouped
under transaction types; JSON objects preserve insertion order, hence
association lists. -/

abbrev Labels := List (String × List String)

abbrev Categories := List (String × Labels)

abbrev TransactionMap := List (String × Categories)

/-- Ordered-dict lookup (`d[k]` / `k in d`). -/
def find_key {α : Type} (k : String) : List (String × α) → Option α
  | [] => none
  | (k', v) :: rest => if k' = k then some v else find_key k rest

/-- The fixed generic-purchase list on line 183. -/
def generic_types : List String := ["Apple Pay", "POS Purchase", "FNB Generic"]

/-! ## The classifier `apply_category` (lines 179-210)

Each Python `for` loop that can `return` becomes a recursion returning
`Option`; `none` means the loop finished without returning. -/

/-- Innermost loop of the generic branch (lines 187-190) and of the
non-Transfer/non-EFT typed branch (lines 205-208). -/
def scan_substrings (category my_description description : String) :
    List String → Option (String × String)
  | [] => none
  | b :: bs =>
    if desc_match b description then some (category, my_description)
    else scan_substrings category my_description description bs

/-- Label loop of the generic `Payments` branch (lines 186-190). -/
def scan_labels_payments (category description : String) :
    Labels → Option (String × String)
  | [] => none
  | (my_description, bank_descriptions) :: labs =>
    match scan_substrings category my_description description bank_descriptions with
    | some r => some r
    | none => scan_labels_payments category description labs

/-- Category loop of the generic `Payments` branch (lines 185-190). -/
def scan_categories_payments (description : String) :
    Categories → Option (String × String)
  | [] => none
  | (category, descriptions) :: cats =>
    match scan_labels_payments category description descriptions with
    | some r => some r
    | none => scan_categories_payments description cats

/-- The EFT inner loop (lines 199-203): both arms of the `if` return, so a
nonempty substring list decides on its first element only; an empty list
falls through to the next label.  Note the source's literal spelling
`"Uncatagorised"`. -/
def eft_scan (category description : String) : List String → Option (String × String)
  | [] => none
  | b :: _ =>
    if desc_match b description then some (category, description)
    else some ("Uncatagorised", description)

/-- Label loop of the typed branch (lines 195-208), with the per-iteration
`Transfer` / `EFT` tests of lines 196 and 198. -/
def scan_labels_typed (transaction_type category description : String) :
    Labels → Option (String × String)
  | [] => none
  | (my_description, bank_descriptions) :: labs =>
    if transaction_type = "Transfer" then some ("Transfer", "Transfer")
    else if transaction_type = "EFT" then
      match eft_scan category description bank_descriptions with
      | some r => some r
      | none => scan_labels_typed transaction_type category description labs
    else
      match scan_substrings category my_description description bank_descriptions with
      | some r => some r
      | none => scan_labels_typed transaction_type category description labs

/-- Category loop of the typed branch (lines 194-208). -/
def scan_categories_typed (transaction_type description : String) :
    Categories → Option (String × String)
  | [] => none
  | (category, descriptions) :: cats =>
    match scan_labels_typed transaction_type category description descriptions with
    | some r => some r
    | none => scan_categories_typed transaction_type description cats

/-- `apply_category(row)` (lines 179-210).  `m` is
`mappings['Transaction Map']`; the enclosing one-key configuration object
is elided (a malformed configuration fails the run before classification,
spec section 6).  The generic branch indexes `m["Payments"]` directly and
so raises `KeyError` when that bucket is absent, as the source does. -/
def apply_category (m : TransactionMap) (row : Record) :
    Except PyError (String × String) :=
  let transaction_type := row.transactionType
  let description := row.description
  if transaction_type ∈ generic_types then
    match find_key "Payments" m with
    | none => Except.error (PyError.keyError "Payments")
    | some categories =>
      match scan_categories_payments description categories with
      | some r => Except.ok r
      | none => Except.ok ("Unknown", "Unknown")
  else
    match find_key transaction_type m with
    | some categories =>
      match scan_categories_typed transaction_type description categories with
      | some r => Except.ok r
      | none => Except.ok ("Unknown", "Unknown")
    | none => Except.ok ("Unknown", "Unknown")

/-- First label under a category that has a nonempty substring list,
together with that list's head. -/
def first_live_label : Labels → Option (String × String)
  | [] => none
  | (_, []) :: labs => first_live_label labs
  | (l, b :: _) :: _ => some (l, b)

/-! ## Source parsers

A raw text file is a list of its physical lines (newline already removed,
as after Python `readline().strip()` / the csv reader); a pre-split CSV
file is a list of rows, each row a list of field strings. -/

/-- `extract_account_info` (lines 10-25): read the first four physical
lines, strip and comma-split each, return the fourth.  Python `readline()`
past end-of-file returns `""`, so short files yield `[""]` rows rather than
raising here. -/
def extract_account_info (lines : List String) : List String :=
  let account_info := (List.range 4).map (fun i => py_split_comma (py_strip (lines.getD i "")))
  account_info.getD 3 []

/-- Value of column `name` for row `r` under `header`; a column that is
absent from the header is modelled as the empty cell (the pipeline only
faults on such columns downstream, outside the verified claims). -/
def col_value (header : List String) (r : List String) (name : String) : String :=
  match find_index name header with
  | some i => r.getD i ""
  | none => ""

/-- `process_fnb_file` (lines 27-58, Dialect A).  `account_info[1]` and
`account_info[2]` raise `IndexError` on a row with too few fields —
exactly what a file with fewer than four lines produces.
`pd.read_csv(file_path, header=4)` puts the header on physical line 5
(index 4) and the data after it; column names are stripped, the
Description cells stripped, and `Transaction Type` synthesized as
`"FNB Generic"` with a `"Fee"` override for descriptions starting `#`. -/
def process_fnb_file (lines : List String) : Except PyError (List Record) :=
  let account_info := extract_account_info lines
  match py_get account_info 1 with
  | Except.error e => Except.error e
  | Except.ok acc_number =>
    match py_get account_info 2 with
    | Except.error e => Except.error e
    | Except.ok raw2 =>
      let acc_name := py_slice_2_m1 raw2
      let header := (py_split_comma (lines.getD 4 "")).map py_strip
      let rows := (lines.drop 5).map py_split_comma
      match find_index "Description" header with
      | none => Except.error (PyError.keyError "Description")
      | some di =>
        Except.ok (rows.map (fun r =>
          let desc := py_strip (r.getD di "")
          let tt := if py_startswith_hash desc then "Fee" else "FNB Generic"
          { date := col_value header r "Date",
            accountName := acc_name,
            accountNumber := acc_number,
            transactionType := tt,
            description := desc,
            amount := col_value header r "Amount" }))

/-- Map a fallible row operation over a list; the first raised exception
aborts, as an exception inside a Python loop or a vectorized pandas
operation does. -/
def map_or_fail {α β : Type} (f : α → Except PyError β) :
    List α → Except PyError (List β)
  | [] => Except.ok []
  | a :: l =>
    match f a with
    | Except.error e => Except.error e
    | Except.ok b =>
      match map_or_fail f l with
      | Except.error e => Except.error e
      | Except.ok bs => Except.ok (b :: bs)

/-- One row of a Discovery export before renaming (line 74's column set). -/
structure DiscoveryRow where
  valueDate : String
  valueTime : String
  type : String
  description : String
  beneficiary : String
  amount : String
deriving DecidableEq

/-- One record of `process_discovery_file` (lines 60-93, Dialect B): rename
columns, then `pd.to_datetime(df['Date'])` — the default `errors='raise'`
raises on an unparseable date — then `strftime('%Y/%m/%d')`, then the
hard-coded account identity. -/
def process_discovery_row (r : DiscoveryRow) : Except PyError Record :=
  match to_datetime_guess r.valueDate with
  | none => Except.error (PyError.dateParseError r.valueDate)
  | some d =>
    Except.ok
      { date := render_date d,
        accountName := "Discovery Credit Card",
        accountNumber := "17275813806",
        transactionType := r.type,
        description := r.description,
        amount := r.amount }

/-- `process_discovery_file` over a whole file of rows. -/
def process_discovery_file (rows : List DiscoveryRow) : Except PyError (List Record) :=
  map_or_fail process_discovery_row rows

/-- One data row of `process_standard_bank_file` (lines 95-118, Dialect C)
under the fixed positional header
`['HIST', 'Date', '#', 'Amount', 'Transaction Type', 'Description', 'Code', '0']`:
the Date cell (position 1) is parsed with
`pd.to_datetime(..., format='%Y%m%d')` — default `errors='raise'` — and
re-rendered as `YYYY/MM/DD`; account identity is hard-coded. -/
def parse_standard_bank_row (r : List String) : Except PyError Record :=
  match parse_yyyymmdd (r.getD 1 "") with
  | none => Except.error (PyError.dateParseError (r.getD 1 ""))
  | some d =>
    Except.ok
      { date := render_date d,
        accountName := "Standard Bank",
        accountNumber := "428094465",
        transactionType := r.getD 4 "",
        description := r.getD 5 "",
        amount := r.getD 3 "" }

/-- `process_standard_bank_file` on a pre-split file:
`pd.read_csv(..., skiprows=3, header=None, names=custom_header, skipfooter=1)`
drops the first three lines and the final trailer line, then each
remaining row is parsed positionally. -/
def process_standard_bank_file (lines : List (List String)) :
    Except PyError (List Record) :=
  map_or_fail parse_standard_bank_row ((lines.drop 3).dropLast)

/-! ## Deduplication and aggregation -/

/-- Fuel-driven core of `drop_duplicates` (the fuel only bounds recursion
depth; `l.length` is always enough since filtering never grows a list). -/
def drop_dups_aux {α : Type} [DecidableEq α] : Nat → List α → List α
  | _, [] => []
  | 0, _ :: _ => []
  | n + 1, a :: l => a :: drop_dups_aux n (l.filter (fun b => decide (b ≠ a)))

/-- `DataFrame.drop_duplicates()`: keep the first occurrence of every
fully-equal row, preserving first-seen order. -/
def drop_duplicates {α : Type} [DecidableEq α] (l : List α) : List α :=
  drop_dups_aux l.length l

/-- `process_files_in_folder` (lines 140-161): apply the parser to every
`.csv` file of the folder in listing order — an exception from any one
file propagates, there is no per-file guard in the source — then
`pd.concat(...).drop_duplicates().reset_index(drop=True)` (the empty
folder yields an empty frame). -/
def process_files_in_folder {α : Type} (files : List (String × α))
    (process_function : α → Except PyError (List Record)) :
    Except PyError (List Record) :=
  match map_or_fail (fun nf => process_function nf.2)
      (files.filter (fun nf => py_endswith nf.1 ".csv")) with
  | Except.error e => Except.error e
  | Except.ok dataframes => Except.ok (drop_duplicates dataframes.flatten)

/-- The merge stage of `main` (lines 254-255):
`pd.concat(all_dfs, ignore_index=True).drop_duplicates().reset_index(drop=True)`. -/
def merge_dataframes (dfs : List (List Record)) : List Record :=
  drop_duplicates dfs.flatten

/-- Spec-side description of the EFT branch, written from the amended C1
wording (to be compared with `scan_categories_typed` at `"EFT"`): walk the
categories in order, skip categories all of whose labels have empty
substring lists, and decide at the first live label by checking only the
head substring — a match gives `(category, description)`, a miss gives
`("Uncatagorised", description)`. -/
def eft_spec (description : String) : Categories → Option (String × String)
  | [] => none
  | (category, labs) :: cats =>
    match first_live_label labs with
    | some (_, b) =>
      some (if desc_match b description then (category, description)
            else ("Uncatagorised", description))
    | none => eft_spec description cats

/-! ## Concrete inputs used by witnesses and counterexamples -/

def c1_table : TransactionMap := [("EFT", [("CategoryX", [("LabelY", ["rent"])])])]

def c1_row : Record :=
  ⟨"2023/05/01", "Cheque Account", "62295306578", "EFT", "groceries", "-50.00"⟩

def c2_table : TransactionMap :=
  [("Transfer", [("Transfers", [("Between accounts", ["trf"])])])]

def c2_empty_table : TransactionMap := [("Transfer", [])]

def c2_row : Record :=
  ⟨"2023/05/02", "Cheque Account", "62295306578", "Transfer", "weekly savings", "-10.00"⟩

def c3_table : TransactionMap :=
  [("Payments", [("Groceries", [("Checkers", ["checkers"])])]),
   ("EFT", [("CategoryX", [("LabelY", ["rent"])])])]

def c3_row_unlisted : Record := ⟨"", "", "", "Loan", "monthly instalment", ""⟩

def c3_row_generic : Record := ⟨"", "", "", "POS Purchase", "fuel station", ""⟩

def c9_row_a : Record := ⟨"2023/05/01", "A", "1", "Cash", "coffee", "-20"⟩

def c9_row_b : Record := ⟨"1999/01/01", "B", "2", "Cash", "coffee", "-999"⟩

def c10_payments_table : TransactionMap :=
  [("Payments", [("CatA", [("LabA", ["  ", "later"])]), ("CatB", [("LabB", ["x"])])])]

def c10_row_generic : Record := ⟨"", "", "", "Apple Pay", "anything at all", ""⟩

def c10_typed_table : TransactionMap :=
  [("DebiCheck", [("Housing", [("Flat", [" ", "rent"])]), ("Other", [("O", ["y"])])])]

def c10_row_typed : Record := ⟨"", "", "", "DebiCheck", "no configured words", ""⟩

def c4_good_discovery_row : DiscoveryRow :=
  ⟨"2023-05-01", "10:00", "EFT", "groceries", "", "-10.00"⟩

def c4_bad_discovery_row : DiscoveryRow :=
  ⟨"not a date", "10:00", "EFT", "groceries", "", "-10.00"⟩

def c4_good_sb_row : List String :=
  ["HIST", "20230501", "", "100.00", "EFT", "Rent", "", "0"]

def c4_bad_sb_row : List String :=
  ["HIST", "01/05/2023", "", "100.00", "EFT", "Rent", "", "0"]

def fnb_short_file : List String := ["Account Statement"]

def fnb_short_file3 : List String := ["Account Statement", "", "62295306578,extra"]

def fnb_good_file : List String :=
  ["First National Bank", "", "", "3,62295306578,xxCheque Accounty",
   "Date, Amount, Description", "2023/05/01,100.00,#Monthly Fee 5.00"]

def fnb_good_record : Record :=
  ⟨"2023/05/01", "Cheque Account", "62295306578", "Fee", "#Monthly Fee 5.00", "100.00"⟩

def sb_meta : List (List String) := [["HEADER"], ["ACCOUNT"], ["428094465"]]

def sb_trailer : List String := ["END OF STATEMENT"]

def c8_unit_file_list : List (String × Unit) := [("a.csv", ())]

def c8_parse (_ : Unit) : Except PyError (List Record) := Except.ok [c9_row_a]

/-! ## Helper lemmas -/
-- string lemmas
theorem char_list_has_nil_needle (hay : List Char) : char_list_has hay [] = true := by
  induction hay with
  | nil => rfl
  | cons a t ih => simp [char_list_has, char_list_starts]

theorem desc_match_of_strip_empty (s desc : String) (h : py_strip s = "") :
    desc_match s desc = true := by
  unfold desc_match str_contains
  rw [h]
  exact char_list_has_nil_needle _

-- C3 scan-failure lemmas
theorem scan_substrings_eq_none (c l desc : String) (bs : List String)
    (h : ∀ b ∈ bs, desc_match b desc = false) :
    scan_substrings c l desc bs = none := by
  induction bs with
  | nil => rfl
  | cons b bs ih =>
    simp only [scan_substrings]
    rw [h b (by simp)]
    simp only [Bool.false_eq_true, if_false]
    exact ih (fun x hx => h x (by simp [hx]))

theorem scan_labels_payments_eq_none (c desc : String) (labs : Labels)
    (h : ∀ lab ∈ labs, ∀ b ∈ lab.2, desc_match b desc = false) :
    scan_labels_payments c desc labs = none := by
  induction labs with
  | nil => rfl
  | cons lab labs ih =>
    match lab with
    | (md, bd) =>
      simp only [scan_labels_payments]
      rw [scan_substrings_eq_none c md desc bd (fun b hb => h (md, bd) (by simp) b hb)]
      exact ih (fun x hx b hb => h x (by simp [hx]) b hb)

theorem scan_categories_payments_eq_none (desc : String) (cats : Categories)
    (h : ∀ cat ∈ cats, ∀ lab ∈ cat.2, ∀ b ∈ lab.2, desc_match b desc = false) :
    scan_categories_payments desc cats = none := by
  induction cats with
  | nil => rfl
  | cons cat cats ih =>
    match cat with
    | (cn, labs) =>
      simp only [scan_categories_payments]
      rw [scan_labels_payments_eq_none cn desc labs (fun lab hl b hb => h (cn, labs) (by simp) lab hl b hb)]
      exact ih (fun x hx lab hl b hb => h x (by simp [hx]) lab hl b hb)

-- C10 scan-success lemma
theorem scan_substrings_strip_empty (c l desc s : String) (ss1 ss2 : List String)
    (h : py_strip s = "") :
    scan_substrings c l desc (ss1 ++ s :: ss2) = some (c, l) := by
  induction ss1 with
  | nil =>
    simp only [List.nil_append, scan_substrings]
    rw [desc_match_of_strip_empty s desc h]
    simp
  | cons x t ih =>
    simp only [List.cons_append, scan_substrings]
    by_cases hx : desc_match x desc = true
    · rw [hx]; simp
    · rw [Bool.not_eq_true] at hx
      rw [hx]
      simpa using ih

-- C1 EFT lemmas
theorem scan_labels_typed_eft (category desc : String) (labs : Labels) :
    scan_labels_typed "EFT" category desc labs =
      (first_live_label labs).map
        (fun p => if desc_match p.2 desc then (category, desc) else ("Uncatagorised", desc)) := by
  induction labs with
  | nil => rfl
  | cons lab labs ih =>
    match lab with
    | (md, bd) =>
      match bd with
      | [] =>
        simp only [scan_labels_typed, first_live_label]
        simpa [eft_scan] using ih
      | b :: bs =>
        simp only [scan_labels_typed, first_live_label, eft_scan]
        by_cases hb : desc_match b desc = true
        · simp [hb]
        · rw [Bool.not_eq_true] at hb; simp [hb]

theorem scan_categories_typed_eft (desc : String) (cats : Categories) :
    scan_categories_typed "EFT" desc cats = eft_spec desc cats := by
  induction cats with
  | nil => rfl
  | cons cat cats ih =>
    match cat with
    | (cn, labs) =>
      simp only [scan_categories_typed, eft_spec, scan_labels_typed_eft]
      cases h : first_live_label labs with
      | none => simpa using ih
      | some p => simp

-- C2 Transfer lemma
theorem scan_categories_typed_transfer (desc : String) (cats : Categories)
    (h : ∃ p ∈ cats, p.2 ≠ []) :
    scan_categories_typed "Transfer" desc cats = some ("Transfer", "Transfer") := by
  induction cats with
  | nil => simp at h
  | cons cat cats ih =>
    match cat with
    | (cn, labs) =>
      match labs with
      | [] =>
        simp only [scan_categories_typed, scan_labels_typed]
        apply ih
        rcases h with ⟨p, hp, hne⟩
        rcases List.mem_cons.mp hp with h1 | h2
        · exact absurd (congrArg Prod.snd h1) hne
        · exact ⟨p, h2, hne⟩
      | lab :: labs' =>
        match lab with
        | (md, bd) =>
          simp only [scan_categories_typed, scan_labels_typed]
          simp

/-- C1 (amended): for an `EFT` record whose type is a rule-table key, the
classifier walks to the first category/label pair with a nonempty substring
list and decides on that list's head substring alone — a match returns
`(Category, Description)`, a miss returns the code's literal
`("Uncatagorised", Description)`; if every list under `EFT` is empty the
record falls through to `("Unknown", "Unknown")` (this behaviour is
captured by `eft_spec`). -/
theorem c1_eft_first_live_label (m : TransactionMap) (row : Record) (cats : Categories)
    (htt : row.transactionType = "EFT") (hk : find_key "EFT" m = some cats) :
    apply_category m row =
      Except.ok ((eft_spec row.description cats).getD ("Unknown", "Unknown")) := by
  simp only [apply_category, htt, hk, scan_categories_typed_eft]
  rw [if_neg (by decide : ¬ ("EFT" : String) ∈ generic_types)]
  cases h : eft_spec row.description cats <;> simp [h]

theorem c1_eft_first_live_label_witness :
    apply_category c1_table c1_row =
      Except.ok ((eft_spec c1_row.description
        [("CategoryX", [("LabelY", ["rent"])])]).getD ("Unknown", "Unknown")) :=
  c1_eft_first_live_label c1_table c1_row [("CategoryX", [("LabelY", ["rent"])])]
    (by decide) (by decide)

/-- C1 counterexample: with rule table `EFT → {CategoryX: {LabelY: ["rent"]}}`
and a Description not containing "rent", the code returns the literal string
`"Uncatagorised"`, not the claim's `"Uncategorised"`. -/
theorem c1_uncatagorised_spelling :
    apply_category c1_table c1_row = Except.ok ("Uncatagorised", "groceries") ∧
      ("Uncatagorised" : String) ≠ "Uncategorised" := by
  constructor
  · decide
  · decide

/-- C2 (amended): a `Transfer` record resolves to `(Transfer, Transfer)`
independently of its Description, provided the rule table's `Transfer`
entry contains at least one category with at least one payment-label. -/
theorem c2_transfer_short_circuit (m : TransactionMap) (row : Record) (cats : Categories)
    (htt : row.transactionType = "Transfer") (hk : find_key "Transfer" m = some cats)
    (hne : ∃ p ∈ cats, p.2 ≠ []) :
    apply_category m row = Except.ok ("Transfer", "Transfer") := by
  simp only [apply_category, htt, hk, scan_categories_typed_transfer row.description cats hne]
  rw [if_neg (by decide : ¬ ("Transfer" : String) ∈ generic_types)]

theorem c2_transfer_short_circuit_witness :
    apply_category c2_table c2_row = Except.ok ("Transfer", "Transfer") :=
  c2_transfer_short_circuit c2_table c2_row [("Transfers", [("Between accounts", ["trf"])])]
    (by decide) (by decide) (by decide)

/-- C2 counterexample: when the `Transfer` entry of the rule table is
structurally empty, a `Transfer` record resolves to `(Unknown, Unknown)`,
not `(Transfer, Transfer)`. -/
theorem c2_empty_transfer_entry :
    apply_category c2_empty_table c2_row = Except.ok ("Unknown", "Unknown") ∧
      (("Unknown", "Unknown") : String × String) ≠ ("Transfer", "Transfer") := by
  constructor
  · decide
  · decide

/-- C3: a record whose type is neither generic nor a rule-table key, and a
generic-type record whose Description matches no substring of the
`Payments` bucket, both classify to the concrete pair
`("Unknown", "Unknown")`. -/
theorem c3_unknown_fallback :
    (∀ (m : TransactionMap) (row : Record),
        row.transactionType ∉ generic_types →
        find_key row.transactionType m = none →
        apply_category m row = Except.ok ("Unknown", "Unknown")) ∧
    (∀ (m : TransactionMap) (row : Record) (cats : Categories),
        row.transactionType ∈ generic_types →
        find_key "Payments" m = some cats →
        (∀ cat ∈ cats, ∀ lab ∈ cat.2, ∀ b ∈ lab.2, desc_match b row.description = false) →
        apply_category m row = Except.ok ("Unknown", "Unknown")) := by
  constructor
  · intro m row hng hk
    simp [apply_category, hng, hk]
  · intro m row cats hg hk hnm
    simp [apply_category, hg, hk, scan_categories_payments_eq_none row.description cats hnm]

theorem c3_unknown_fallback_witness :
    apply_category c3_table c3_row_unlisted = Except.ok ("Unknown", "Unknown") ∧
    apply_category c3_table c3_row_generic = Except.ok ("Unknown", "Unknown") :=
  ⟨c3_unknown_fallback.1 c3_table c3_row_unlisted (by decide) (by decide),
   c3_unknown_fallback.2 c3_table c3_row_generic [("Groceries", [("Checkers", ["checkers"])])]
     (by decide) (by decide) (by decide)⟩

/-- C9: classification reads only the record's Transaction Type and
Description (besides the rule table); all other fields are irrelevant, and
the result is a function of those inputs. -/
theorem c9_classification_pure (m : TransactionMap) (r1 r2 : Record)
    (h1 : r1.transactionType = r2.transactionType) (h2 : r1.description = r2.description) :
    apply_category m r1 = apply_category m r2 := by
  simp only [apply_category, h1, h2]

theorem c9_classification_pure_witness :
    apply_category c1_table c9_row_a = apply_category c1_table c9_row_b :=
  c9_classification_pure c1_table c9_row_a c9_row_b rfl rfl

/-- C10: a whitespace-only rule substring is (after trimming) a substring
of every Description; placed in the leading label of the `Payments` bucket
or of a typed entry other than `Transfer`/`EFT`, it matches every record
reaching that branch — whatever substrings, labels and categories follow
it are never consulted. -/
theorem c10_empty_substring_matches_all :
    (∀ (s desc : String), py_strip s = "" → desc_match s desc = true) ∧
    (∀ (m : TransactionMap) (row : Record) (c l s : String)
        (ss1 ss2 : List String) (labs : Labels) (cats : Categories),
        py_strip s = "" →
        row.transactionType ∈ generic_types →
        find_key "Payments" m = some ((c, (l, ss1 ++ s :: ss2) :: labs) :: cats) →
        apply_category m row = Except.ok (c, l)) ∧
    (∀ (m : TransactionMap) (row : Record) (c l s : String)
        (ss1 ss2 : List String) (labs : Labels) (cats : Categories),
        py_strip s = "" →
        row.transactionType ∉ generic_types →
        row.transactionType ≠ "Transfer" →
        row.transactionType ≠ "EFT" →
        find_key row.transactionType m = some ((c, (l, ss1 ++ s :: ss2) :: labs) :: cats) →
        apply_category m row = Except.ok (c, l)) := by
  refine ⟨fun s desc h => desc_match_of_strip_empty s desc h, ?_, ?_⟩
  · intro m row c l s ss1 ss2 labs cats hs hg hk
    simp [apply_category, hg, hk, scan_categories_payments, scan_labels_payments,
      scan_substrings_strip_empty c l row.description s ss1 ss2 hs]
  · intro m row c l s ss1 ss2 labs cats hs hng ht he hk
    simp [apply_category, hng, hk, scan_categories_typed, scan_labels_typed, ht, he,
      scan_substrings_strip_empty c l row.description s ss1 ss2 hs]

theorem c10_empty_substring_matches_all_witness :
    desc_match "  " "anything" = true ∧
    apply_category c10_payments_table c10_row_generic = Except.ok ("CatA", "LabA") ∧
    apply_category c10_typed_table c10_row_typed = Except.ok ("Housing", "Flat") :=
  ⟨c10_empty_substring_matches_all.1 "  " "anything" (by decide),
   c10_empty_substring_matches_all.2.1 c10_payments_table c10_row_generic "CatA" "LabA" "  "
     [] ["later"] [] [("CatB", [("LabB", ["x"])])] (by decide) (by decide) (by decide),
   c10_empty_substring_matches_all.2.2 c10_typed_table c10_row_typed "Housing" "Flat" " "
     [] ["rent"] [] [("Other", [("O", ["y"])])]
     (by decide) (by decide) (by decide) (by decide) (by decide)⟩

-- map_or_fail lemmas
theorem map_or_fail_ok_of_forall {α β : Type} (f : α → Except PyError β) :
    ∀ l : List α, (∀ a ∈ l, (f a).isOk = true) →
      ∃ bs, map_or_fail f l = Except.ok bs ∧ bs.length = l.length := by
  intro l h
  induction l with
  | nil => exact ⟨[], rfl, rfl⟩
  | cons a t ih =>
    have ha := h a (by simp)
    cases hfa : f a with
    | error e => rw [hfa] at ha; simp [Except.isOk, Except.toBool] at ha
    | ok b =>
      rcases ih (fun x hx => h x (by simp [hx])) with ⟨bs, hbs, hlen⟩
      exact ⟨b :: bs, by simp [map_or_fail, hfa, hbs], by simp [hlen]⟩

theorem map_or_fail_append {α β : Type} (f : α → Except PyError β) :
    ∀ (l₁ l₂ : List α) (y₁ y₂ : List β),
      map_or_fail f l₁ = Except.ok y₁ → map_or_fail f l₂ = Except.ok y₂ →
      map_or_fail f (l₁ ++ l₂) = Except.ok (y₁ ++ y₂) := by
  intro l₁
  induction l₁ with
  | nil =>
    intro l₂ y₁ y₂ h1 h2
    injection h1 with h1'
    subst h1'
    simpa using h2
  | cons a t ih =>
    intro l₂ y₁ y₂ h1 h2
    simp only [map_or_fail] at h1
    cases hfa : f a with
    | error e => rw [hfa] at h1; exact absurd h1 (by simp)
    | ok b =>
      rw [hfa] at h1
      cases hmt : map_or_fail f t with
      | error e => rw [hmt] at h1; exact absurd h1 (by simp)
      | ok bs =>
        rw [hmt] at h1
        injection h1 with h1'
        subst h1'
        rw [List.cons_append]
        simp only [map_or_fail]
        rw [hfa, ih l₂ bs y₂ hmt h2]
        rfl

/-- C4 (amended): valid native dates render as `YYYY/MM/DD` everywhere, and
the combined stage coerces an unparseable date to a marker; but the Dialect
B (Discovery) and Dialect C (Standard Bank) parsers, which call
`pd.to_datetime` with the default `errors='raise'`, raise an error on an
invalid date instead of producing a marker. -/
theorem c4_date_normalization :
    (∀ (s : String) (d : Date), to_datetime_guess s = some d →
        process_combined_date s = some (render_date d)) ∧
    (∀ s : String, to_datetime_guess s = none → process_combined_date s = none) ∧
    (∀ (r : DiscoveryRow) (d : Date), to_datetime_guess r.valueDate = some d →
        process_discovery_row r = Except.ok
          ⟨render_date d, "Discovery Credit Card", "17275813806",
            r.type, r.description, r.amount⟩) ∧
    (∀ r : DiscoveryRow, to_datetime_guess r.valueDate = none →
        process_discovery_row r = Except.error (PyError.dateParseError r.valueDate)) ∧
    (∀ (r : List String) (d : Date), parse_yyyymmdd (r.getD 1 "") = some d →
        parse_standard_bank_row r = Except.ok
          ⟨render_date d, "Standard Bank", "428094465",
            r.getD 4 "", r.getD 5 "", r.getD 3 ""⟩) ∧
    (∀ r : List String, parse_yyyymmdd (r.getD 1 "") = none →
        parse_standard_bank_row r = Except.error (PyError.dateParseError (r.getD 1 ""))) := by
  refine ⟨?_, ?_, ?_, ?_, ?_, ?_⟩
  · intro s d h; simp [process_combined_date, h]
  · intro s h; simp [process_combined_date, h]
  · intro r d h; simp [process_discovery_row, h]
  · intro r h; simp [process_discovery_row, h]
  · intro r d h
    simp only [List.getD_eq_getElem?_getD] at h
    simp [parse_standard_bank_row, h]
  · intro r h
    simp only [List.getD_eq_getElem?_getD] at h
    simp [parse_standard_bank_row, h]

theorem c4_date_normalization_witness :
    process_combined_date "2023-05-01" = some (render_date ⟨2023, 5, 1⟩) ∧
    process_combined_date "not a date" = none ∧
    process_discovery_row c4_good_discovery_row = Except.ok
      ⟨render_date ⟨2023, 5, 1⟩, "Discovery Credit Card", "17275813806",
        c4_good_discovery_row.type, c4_good_discovery_row.description,
        c4_good_discovery_row.amount⟩ ∧
    process_discovery_row c4_bad_discovery_row =
      Except.error (PyError.dateParseError c4_bad_discovery_row.valueDate) ∧
    parse_standard_bank_row c4_good_sb_row = Except.ok
      ⟨render_date ⟨2023, 5, 1⟩, "Standard Bank", "428094465",
        c4_good_sb_row.getD 4 "", c4_good_sb_row.getD 5 "", c4_good_sb_row.getD 3 ""⟩ ∧
    parse_standard_bank_row c4_bad_sb_row =
      Except.error (PyError.dateParseError (c4_bad_sb_row.getD 1 "")) :=
  ⟨c4_date_normalization.1 "2023-05-01" ⟨2023, 5, 1⟩ (by decide),
   c4_date_normalization.2.1 "not a date" (by decide),
   c4_date_normalization.2.2.1 c4_good_discovery_row ⟨2023, 5, 1⟩ (by decide),
   c4_date_normalization.2.2.2.1 c4_bad_discovery_row (by decide),
   c4_date_normalization.2.2.2.2.1 c4_good_sb_row ⟨2023, 5, 1⟩ (by decide),
   c4_date_normalization.2.2.2.2.2 c4_bad_sb_row (by decide)⟩

/-- C4 counterexample: an invalid date in a Discovery file does not become
a per-record marker — the file parse aborts with a raised error, losing the
valid sibling record as well. -/
theorem c4_discovery_invalid_date_raises :
    process_discovery_file [c4_good_discovery_row, c4_bad_discovery_row] =
      Except.error (PyError.dateParseError "not a date") := by
  decide

/-- C5: an FNB file with fewer than four lines makes
`process_fnb_file` raise an `IndexError` while reading the account-metadata
row (`account_info[1]` on the `['']` produced by `readline()` past
end-of-file) — there is no Malformed-Source guard in the code. -/
theorem c5_fnb_short_file_index_fault :
    process_fnb_file fnb_short_file = Except.error PyError.indexError ∧
    process_fnb_file fnb_short_file3 = Except.error PyError.indexError := by
  constructor
  · decide
  · decide

/-- C6: `process_files_in_folder` has no per-file error guard: the
`IndexError` from the malformed first file aborts the whole folder, so the
records of the valid sibling file (which parses to a nonempty record list
on its own) never reach the aggregated output. -/
theorem c6_folder_aborts_on_first_error :
    process_files_in_folder [("bad.csv", fnb_short_file), ("good.csv", fnb_good_file)]
      process_fnb_file = Except.error PyError.indexError ∧
    process_files_in_folder [("good.csv", fnb_good_file)] process_fnb_file =
      Except.ok [fnb_good_record] := by
  constructor
  · decide
  · decide

/-- C7: a Standard Bank file made of a 3-line metadata prefix, `N` data
rows with well-formed dates, and one trailer line parses to exactly `N`
records — the prefix is skipped and the trailer is never emitted. -/
theorem c7_standard_bank_trailer_strip (meta data : List (List String)) (trailer : List String)
    (hm : meta.length = 3)
    (hv : ∀ r ∈ data, (parse_yyyymmdd (r.getD 1 "")).isSome = true) :
    ∃ recs, process_standard_bank_file (meta ++ (data ++ [trailer])) = Except.ok recs ∧
      recs.length = data.length := by
  unfold process_standard_bank_file
  have hdrop : (meta ++ (data ++ [trailer])).drop 3 = data ++ [trailer] := by
    rw [← hm]
    exact List.drop_left meta (data ++ [trailer])
  rw [hdrop, List.dropLast_concat]
  apply map_or_fail_ok_of_forall
  intro r hr
  rcases Option.isSome_iff_exists.mp (hv r hr) with ⟨d, hd⟩
  simp only [List.getD_eq_getElem?_getD] at hd
  simp [parse_standard_bank_row, hd, Except.isOk, Except.toBool]

theorem c7_standard_bank_trailer_strip_witness :
    ∃ recs, process_standard_bank_file (sb_meta ++ ([c4_good_sb_row] ++ [sb_trailer])) =
      Except.ok recs ∧ recs.length = [c4_good_sb_row].length :=
  c7_standard_bank_trailer_strip sb_meta [c4_good_sb_row] sb_trailer (by decide) (by decide)

-- drop_duplicates infrastructure
theorem drop_dups_aux_stable {α : Type} [DecidableEq α] :
    ∀ (n : Nat) (l : List α), l.length ≤ n →
      drop_dups_aux n l = drop_dups_aux (n + 1) l := by
  intro n
  induction n with
  | zero =>
    intro l h
    have hl : l = [] := List.eq_nil_of_length_eq_zero (Nat.le_zero.mp h)
    subst hl
    rfl
  | succ n ih =>
    intro l h
    match l with
    | [] => rfl
    | a :: t =>
      show a :: drop_dups_aux n _ = a :: drop_dups_aux (n + 1) _
      congr 1
      exact ih _ (le_trans (List.length_filter_le _ _) (Nat.succ_le_succ_iff.mp h))

theorem drop_dups_aux_of_le {α : Type} [DecidableEq α] :
    ∀ (k n : Nat) (l : List α), l.length ≤ n →
      drop_dups_aux n l = drop_dups_aux (n + k) l := by
  intro k
  induction k with
  | zero => intro n l h; rfl
  | succ k ih =>
    intro n l h
    rw [ih n l h]
    exact drop_dups_aux_stable (n + k) l (le_trans h (Nat.le_add_right n k))

theorem drop_duplicates_cons {α : Type} [DecidableEq α] (a : α) (l : List α) :
    drop_duplicates (a :: l) =
      a :: drop_duplicates (l.filter (fun b => decide (b ≠ a))) := by
  show a :: drop_dups_aux l.length (l.filter _) = _
  congr 1
  have hf : (l.filter (fun b => decide (b ≠ a))).length ≤ l.length :=
    List.length_filter_le _ _
  unfold drop_duplicates
  rw [← Nat.add_sub_cancel' hf]
  exact (drop_dups_aux_of_le _ _ _ (le_refl _)).symm

theorem mem_drop_duplicates_aux {α : Type} [DecidableEq α] :
    ∀ (n : Nat) (l : List α), l.length ≤ n →
      ∀ a, (a ∈ drop_duplicates l ↔ a ∈ l) := by
  intro n
  induction n with
  | zero =>
    intro l h a
    have hl : l = [] := List.eq_nil_of_length_eq_zero (Nat.le_zero.mp h)
    subst hl
    rfl
  | succ n ih =>
    intro l h a
    match l with
    | [] => rfl
    | x :: t =>
      rw [drop_duplicates_cons]
      have hf : (t.filter (fun b => decide (b ≠ x))).length ≤ n :=
        le_trans (List.length_filter_le _ _) (Nat.succ_le_succ_iff.mp h)
      by_cases hax : a = x
      · subst hax; simp
      · simp only [List.mem_cons, ih _ hf a, List.mem_filter]
        constructor
        · rintro (h1 | ⟨h2, _⟩)
          · exact Or.inl h1
          · exact Or.inr h2
        · rintro (h1 | h2)
          · exact Or.inl h1
          · exact Or.inr ⟨h2, by simp [hax]⟩

theorem mem_drop_duplicates {α : Type} [DecidableEq α] (a : α) (l : List α) :
    a ∈ drop_duplicates l ↔ a ∈ l :=
  mem_drop_duplicates_aux l.length l (le_refl _) a

theorem nodup_drop_duplicates_aux {α : Type} [DecidableEq α] :
    ∀ (n : Nat) (l : List α), l.length ≤ n → (drop_duplicates l).Nodup := by
  intro n
  induction n with
  | zero =>
    intro l h
    have hl : l = [] := List.eq_nil_of_length_eq_zero (Nat.le_zero.mp h)
    subst hl
    exact List.nodup_nil
  | succ n ih =>
    intro l h
    match l with
    | [] => exact List.nodup_nil
    | x :: t =>
      rw [drop_duplicates_cons]
      have hf : (t.filter (fun b => decide (b ≠ x))).length ≤ n :=
        le_trans (List.length_filter_le _ _) (Nat.succ_le_succ_iff.mp h)
      refine List.nodup_cons.mpr ⟨?_, ih _ hf⟩
      intro hmem
      have := (mem_drop_duplicates x _).mp hmem
      have := (List.mem_filter.mp this).2
      simp at this

theorem nodup_drop_duplicates {α : Type} [DecidableEq α] (l : List α) :
    (drop_duplicates l).Nodup :=
  nodup_drop_duplicates_aux l.length l (le_refl _)

theorem drop_duplicates_of_nodup_aux {α : Type} [DecidableEq α] :
    ∀ (n : Nat) (l : List α), l.length ≤ n → l.Nodup → drop_duplicates l = l := by
  intro n
  induction n with
  | zero =>
    intro l h _
    have hl : l = [] := List.eq_nil_of_length_eq_zero (Nat.le_zero.mp h)
    subst hl
    rfl
  | succ n ih =>
    intro l h hnd
    match l with
    | [] => rfl
    | x :: t =>
      rw [drop_duplicates_cons]
      rcases List.nodup_cons.mp hnd with ⟨hx, hnt⟩
      have hft : t.filter (fun b => decide (b ≠ x)) = t := by
        apply List.filter_eq_self.mpr
        intro b hb
        simp only [decide_eq_true_eq]
        intro he
        exact hx (he ▸ hb)
      rw [hft]
      rw [ih t (Nat.succ_le_succ_iff.mp h) hnt]

theorem drop_duplicates_of_nodup {α : Type} [DecidableEq α] (l : List α)
    (h : l.Nodup) : drop_duplicates l = l :=
  drop_duplicates_of_nodup_aux l.length l (le_refl _) h

theorem drop_duplicates_idem {α : Type} [DecidableEq α] (l : List α) :
    drop_duplicates (drop_duplicates l) = drop_duplicates l :=
  drop_duplicates_of_nodup _ (nodup_drop_duplicates l)

theorem drop_duplicates_append_self_aux {α : Type} [DecidableEq α] :
    ∀ (n : Nat) (l : List α), l.length ≤ n →
      drop_duplicates (l ++ l) = drop_duplicates l := by
  intro n
  induction n with
  | zero =>
    intro l h
    have hl : l = [] := List.eq_nil_of_length_eq_zero (Nat.le_zero.mp h)
    subst hl
    rfl
  | succ n ih =>
    intro l h
    match l with
    | [] => rfl
    | a :: t =>
      have hstep : (a :: t) ++ (a :: t) = a :: (t ++ a :: t) := by simp
      rw [hstep, drop_duplicates_cons, drop_duplicates_cons]
      congr 1
      rw [List.filter_append]
      rw [List.filter_cons_of_neg (by simp)]
      have hf : (t.filter (fun b => decide (b ≠ a))).length ≤ n :=
        le_trans (List.length_filter_le _ _) (Nat.succ_le_succ_iff.mp h)
      exact ih _ hf

theorem drop_duplicates_append_self {α : Type} [DecidableEq α] (l : List α) :
    drop_duplicates (l ++ l) = drop_duplicates l :=
  drop_duplicates_append_self_aux l.length l (le_refl _)

theorem toFinset_drop_duplicates {α : Type} [DecidableEq α] (l : List α) :
    (drop_duplicates l).toFinset = l.toFinset := by
  ext x
  simp [List.mem_toFinset, mem_drop_duplicates]

/-- C8: aggregating a folder twice and merging collapses to a single
aggregation — the merge of two copies of the folder output equals that
output, doubling the folder's file list leaves the aggregate unchanged,
and the deduplicated record set is invariant under reordering. -/
theorem c8_dedup_idempotent {α : Type} (files : List (String × α))
    (f : α → Except PyError (List Record)) (X : List Record)
    (h : process_files_in_folder files f = Except.ok X) :
    merge_dataframes [X, X] = X ∧
    process_files_in_folder (files ++ files) f = Except.ok X ∧
    (∀ l₁ l₂ : List Record, l₁.Perm l₂ →
      (drop_duplicates l₁).toFinset = (drop_duplicates l₂).toFinset) := by
  unfold process_files_in_folder at h
  cases hmf : map_or_fail (fun nf => f nf.2)
      (files.filter (fun nf => py_endswith nf.1 ".csv")) with
  | error e => rw [hmf] at h; exact absurd h (by simp)
  | ok dfs =>
    rw [hmf] at h
    injection h with hX
    refine ⟨?_, ?_, ?_⟩
    · unfold merge_dataframes
      have hfl : ([X, X] : List (List Record)).flatten = X ++ X := by simp
      rw [hfl, drop_duplicates_append_self, ← hX, drop_duplicates_idem]
    · unfold process_files_in_folder
      rw [List.filter_append, map_or_fail_append _ _ _ _ _ hmf hmf]
      show Except.ok (drop_duplicates (dfs ++ dfs).flatten) = Except.ok X
      rw [List.flatten_append, drop_duplicates_append_self, hX]
    · intro l₁ l₂ hp
      rw [toFinset_drop_duplicates, toFinset_drop_duplicates]
      exact List.toFinset_eq_of_perm _ _ hp

theorem c8_dedup_idempotent_witness :
    merge_dataframes [[c9_row_a], [c9_row_a]] = [c9_row_a] ∧
    process_files_in_folder (c8_unit_file_list ++ c8_unit_file_list) c8_parse =
      Except.ok [c9_row_a] :=
  ⟨(c8_dedup_idempotent c8_unit_file_list c8_parse [c9_row_a] (by decide)).1,
   (c8_dedup_idempotent c8_unit_file_list c8_parse [c9_row_a] (by decide)).2.1⟩
